import Mathlib

/-!
Shallow embedding of the MindLink YouTube ingestion pipeline: the
`YouTubeService` class of `src/services/youtube.ts`, the transcript API
route `src/pages/api/youtube/transcript.ts`, and the fallback helpers of
the analyze-video API route, together with proofs checking the natural
language specification against them.

External network calls are represented by oracle values passed to the
embedded functions; everything the repository computes itself is translated
directly from the source.
-/

namespace MindLink

/-- JavaScript logical-or on an optional number: `undefined`, `null` and `0`
are falsy and are replaced by the default. -/
def jsOrNum (v : Option ℚ) (d : ℚ) : ℚ :=
  match v with
  | none => d
  | some q => if q = 0 then d else q

/-- JavaScript logical-or on an optional string: `undefined`, `null` and the
empty string are falsy and are replaced by the default. -/
def jsOrStr (v : Option String) (d : String) : String :=
  match v with
  | none => d
  | some s => if s = "" then d else s

/-- JavaScript logical-or on an optional array: arrays are always truthy, so
only `undefined` and `null` are replaced by the default. -/
def jsOrList {α : Type} (v : Option (List α)) (d : List α) : List α :=
  v.getD d

/-- Whitespace characters of the regex class `\s` as used by the source on
ASCII transcripts. -/
def wsChar (c : Char) : Bool :=
  c = ' ' || c = '\t' || c = '\n' || c = '\r'

/-- Word characters of the regex class `\w`, that is `[A-Za-z0-9_]`. -/
def wordChar (c : Char) : Bool :=
  c.isUpper || c.isLower || c.isDigit || c = '_'

/-- Sentence punctuation of the regex class `[.!?]`. -/
def punctChar (c : Char) : Bool :=
  c = '.' || c = '!' || c = '?'

/-- Worker for `splitRuns`: `inSep` records that the previous character was a
separator (so a run of separators produces a single split point) and `cur`
is the current piece, reversed. -/
def splitRunsAux (p : Char → Bool) : Bool → List Char → List Char → List (List Char)
  | _, cur, [] => [cur.reverse]
  | inSep, cur, c :: cs =>
    if p c then
      if inSep then splitRunsAux p true cur cs
      else cur.reverse :: splitRunsAux p true [] cs
    else splitRunsAux p false (c :: cur) cs

/-- JavaScript `String.split` on a regex of the form `[sep]+`: a maximal run
of separator characters is one split point, and empty pieces at the borders
are kept, exactly as in JavaScript. -/
def splitRuns (p : Char → Bool) (l : List Char) : List (List Char) :=
  splitRunsAux p false [] l

/-- JavaScript `String.trim` (the repository only ever trims ASCII text). -/
def jsTrim (s : String) : String :=
  String.mk (((s.data.dropWhile wsChar).reverse.dropWhile wsChar).reverse)

/-- JavaScript `String.toLowerCase` (ASCII, which is all the source
compares against). -/
def jsLower (s : String) : String :=
  String.mk (s.data.map Char.toLower)

/-- The `AppError` class of `src/types/index.ts` (message plus a stable
machine readable code). -/
structure AppError where
  message : String
  code : String
  deriving DecidableEq

/-- One timed caption unit (`TranscriptSegment` in `src/types/index.ts`);
`start` and `duration` are numbers of seconds. -/
structure TranscriptSegment where
  text : String
  start : ℚ
  duration : ℚ
  deriving DecidableEq

/-- One entry of `key_timestamps` in a `YouTubeAnalysis`. -/
structure KeyTimestamp where
  time : ℚ
  description : String
  importance : ℚ
  deriving DecidableEq

/-- One entry of `chapters` in a `YouTubeAnalysis`; `endTime` embeds the
source field named `end`. -/
structure Chapter where
  start : ℚ
  endTime : ℚ
  title : String
  summary : String
  deriving DecidableEq

/-- The metadata record produced by `getVideoMetadata`. -/
structure VideoMetadata where
  title : String
  channel : String
  duration : ℚ
  published_date : String
  thumbnail_url : String
  description : Option String
  deriving DecidableEq

/-- Body of a successful response of the oEmbed lookup, with every field
possibly absent. -/
structure OEmbedData where
  title : Option String
  author_name : Option String
  thumbnail_url : Option String
  description : Option String
  deriving DecidableEq

/-- Outcome of the oEmbed network call: the request can fault, return a
non-success status, or return a parsed JSON body. -/
inductive MetadataFetch where
  | networkError
  | httpNotOk
  | ok (data : OEmbedData)
  deriving DecidableEq

/-- The JSON analysis object as parsed from the AI route response; every
field may be absent or null. -/
structure ParsedAnalysis where
  themes : Option (List String)
  key_concepts : Option (List String)
  summary : Option String
  transcript_summary : Option String
  suggested_actions : Option (List String)
  key_timestamps : Option (List KeyTimestamp)
  chapters : Option (List Chapter)
  complexity_score : Option ℚ
  confidence_score : Option ℚ
  sentiment : Option String
  deriving DecidableEq

/-- Outcome of the `/api/ai/analyze-video` call as seen inside
`analyzeVideoContent`: `failure` covers a network fault, a non-success
status and a body that does not parse as JSON (each of these throws inside
the `try` block of the source); `parsed` is a successfully parsed body. -/
inductive AIOutcome where
  | failure
  | parsed (a : ParsedAnalysis)
  deriving DecidableEq

/-- The `YouTubeAnalysis` value returned by `analyzeVideoContent`; the
fields that the fallback object omits are `Option`s. -/
structure YouTubeAnalysis where
  themes : List String
  key_concepts : Option (List String)
  summary : Option String
  transcript_summary : Option String
  suggested_actions : Option (List String)
  key_timestamps : Option (List KeyTimestamp)
  chapters : Option (List Chapter)
  complexity_score : Option ℚ
  confidence_score : ℚ
  sentiment : String
  deriving DecidableEq

/-- Decimal value of a digit string. -/
def charsToNat (l : List Char) : Nat :=
  l.foldl (fun a c => a * 10 + (c.toNat - 48)) 0

/-- The stop word set shared by both fallback theme extractors. -/
def stopWords : List String :=
  ["the", "a", "an", "and", "or", "but", "in", "on", "at", "to", "for", "of", "with", "by"]

/-- The words considered by the fallback theme extractors: the transcript is
lower-cased, split on `\s+`, each word is stripped of non-`\w` characters,
and a word is kept when it is longer than `thr` characters and is not a
stop word (`thr` is 3 in `src/services/youtube.ts` and 4 in the
analyze-video API route). -/
def qualifyingWords (thr : Nat) (t : String) : List String :=
  ((splitRuns wsChar (jsLower t).data).map
      (fun w => String.mk (w.filter wordChar))).filter
    (fun w => decide (thr < w.length) && !(stopWords.contains w))

/-- One step `wordFreq[cleaned] = (wordFreq[cleaned] || 0) + 1` on an
association list kept in insertion order (the creation order of the
properties of the `wordFreq` object); `jsEntries` below applies the
ECMAScript enumeration order on top of it. -/
def bump (w : String) : List (String × Nat) → List (String × Nat)
  | [] => [(w, 1)]
  | (x, n) :: rest => if x = w then (x, n + 1) :: rest else (x, n) :: bump w rest

/-- The `wordFreq` object after the `forEach` loop. -/
def buildFreq (ws : List String) : List (String × Nat) :=
  ws.foldl (fun m w => bump w m) []

/-- Stable insertion into a list sorted by count, descending: the new entry
goes after every entry whose count is at least as large. -/
def insertDesc (p : String × Nat) : List (String × Nat) → List (String × Nat)
  | [] => [p]
  | q :: rest => if p.2 ≤ q.2 then q :: insertDesc p rest else p :: q :: rest

/-- `Array.prototype.sort` with comparator `([,a],[,b]) => b - a`: a stable
sort by count, descending (JavaScript sort is specified to be stable). -/
def sortDesc (l : List (String × Nat)) : List (String × Nat) :=
  l.foldl (fun acc p => insertDesc p acc) []

/-- The first occurrence of each element, keeping encounter order. -/
def firstOccur : List String → List String
  | [] => []
  | w :: ws => w :: (firstOccur ws).filter (fun x => x != w)

/-- A canonical array-index key in the sense of ECMAScript: a string of
digits with no leading zero (except `"0"` itself) whose numeric value is
below 2^32 - 1. `Object.entries` enumerates these keys first, in ascending
numeric order, before the remaining string keys in insertion order. -/
def isArrayIndex (s : String) : Bool :=
  (!s.data.isEmpty && s.data.all Char.isDigit) &&
    (s == "0" || s.data.headD '0' != '0') &&
    decide (charsToNat s.data < 4294967295)

/-- Insertion by ascending numeric key value (array-index keys of one
object are pairwise distinct, so this order is unique). -/
def insertAsc (p : String × Nat) : List (String × Nat) → List (String × Nat)
  | [] => [p]
  | q :: rest =>
    if charsToNat q.1.data ≤ charsToNat p.1.data then q :: insertAsc p rest
    else p :: q :: rest

/-- Sort entries by ascending numeric key value. -/
def sortAsc (l : List (String × Nat)) : List (String × Nat) :=
  l.foldl (fun acc p => insertAsc p acc) []

/-- `Object.entries(wordFreq)`: per the ECMAScript ordinary
`[[OwnPropertyKeys]]`, the canonical array-index keys come first in
ascending numeric order, followed by the remaining string keys in
insertion order. -/
def jsEntries (l : List (String × Nat)) : List (String × Nat) :=
  sortAsc (l.filter (fun p => isArrayIndex p.1)) ++ l.filter (fun p => !isArrayIndex p.1)

namespace YouTubeService

/-- First alternative of `YOUTUBE_URL_REGEX`. -/
def litWatch : List Char :=
  ['y', 'o', 'u', 't', 'u', 'b', 'e', '.', 'c', 'o', 'm', '/', 'w', 'a', 't', 'c', 'h', '?', 'v', '=']

/-- Second alternative of `YOUTUBE_URL_REGEX`. -/
def litShort : List Char :=
  ['y', 'o', 'u', 't', 'u', '.', 'b', 'e', '/']

/-- Third alternative of `YOUTUBE_URL_REGEX`. -/
def litEmbed : List Char :=
  ['y', 'o', 'u', 't', 'u', 'b', 'e', '.', 'c', 'o', 'm', '/', 'e', 'm', 'b', 'e', 'd', '/']

/-- Fourth alternative of `YOUTUBE_URL_REGEX`. -/
def litV : List Char :=
  ['y', 'o', 'u', 't', 'u', 'b', 'e', '.', 'c', 'o', 'm', '/', 'v', '/']

/-- Characters of the identifier class `[a-zA-Z0-9_-]`. -/
def idChar (c : Char) : Bool :=
  c.isUpper || c.isLower || c.isDigit || c = '_' || c = '-'

/-- Match a literal alternative at the head of the input, returning the
remainder on success. -/
def matchLit : List Char → List Char → Option (List Char)
  | [], rest => some rest
  | _ :: _, [] => none
  | l :: ls, c :: cs => if c = l then matchLit ls cs else none

/-- The capture group `([a-zA-Z0-9_-]{11})`: exactly the next 11 characters,
when there are 11 of them and all are identifier characters. -/
def grab11 (l : List Char) : Option (List Char) :=
  if (l.take 11).length = 11 ∧ (l.take 11).all idChar = true then some (l.take 11) else none

/-- One attempted regex match at a fixed position: the four alternatives in
source order, each followed by the capture group. -/
def tryAt (l : List Char) : Option (List Char) :=
  match (matchLit litWatch l).bind grab11 with
  | some v => some v
  | none =>
    match (matchLit litShort l).bind grab11 with
    | some v => some v
    | none =>
      match (matchLit litEmbed l).bind grab11 with
      | some v => some v
      | none => (matchLit litV l).bind grab11

/-- `String.match` scanning: the leftmost position at which the regex
matches wins. -/
def scan : List Char → Option (List Char)
  | [] => none
  | c :: cs =>
    match tryAt (c :: cs) with
    | some v => some v
    | none => scan cs

/-- `YouTubeService.extractVideoId`: the first capture group of
`YOUTUBE_URL_REGEX` when the URL matches, and `null` otherwise. This is a
pure function of the URL. -/
def extractVideoId (url : String) : Option String :=
  (scan url.data).map String.mk

/-- `YouTubeService.getVideoMetadata`; the oEmbed network call is the
`fetch` oracle and `now` stands for `new Date().toISOString()`. -/
def getVideoMetadata (videoId : String) (now : String) (fetch : MetadataFetch) :
    Except AppError VideoMetadata :=
  match fetch with
  | .networkError => .error ⟨"Failed to fetch video metadata", "YOUTUBE_FETCH_FAILED"⟩
  | .httpNotOk => .error ⟨"Failed to fetch video metadata", "YOUTUBE_FETCH_FAILED"⟩
  | .ok data =>
    .ok { title := jsOrStr data.title "Unknown Title"
          channel := jsOrStr data.author_name "Unknown Channel"
          duration := 0
          published_date := now
          thumbnail_url := jsOrStr data.thumbnail_url
            ("https://img.youtube.com/vi/" ++ videoId ++ "/maxresdefault.jpg")
          description := data.description }

/-- `YouTubeService.getTranscript`: the oracle is the response of the
`/api/youtube/transcript` route, `none` when that request faults or returns
a non-success status. Any failure becomes the one generic
`TRANSCRIPT_FAILED` error. -/
def getTranscript (apiResponse : Option (List TranscriptSegment)) :
    Except AppError (List TranscriptSegment) :=
  match apiResponse with
  | none =>
    .error ⟨"Failed to fetch video transcript. Video may not have captions available.",
      "TRANSCRIPT_FAILED"⟩
  | some t => .ok t

/-- `YouTubeService.transcriptToText`: the segment texts joined with single
spaces, in sequence order. -/
def transcriptToText (segments : List TranscriptSegment) : String :=
  String.intercalate " " (segments.map (fun s => s.text))

/-- `YouTubeService.extractBasicThemes` (word length threshold 3). -/
def extractBasicThemes (transcript : String) : List String :=
  ((sortDesc (jsEntries (buildFreq (qualifyingWords 3 transcript)))).take 5).map Prod.fst

/-- The `sentences` local of `generateBasicSummary`: split on `[.!?]+` and
keep the pieces whose trimmed length exceeds 20. -/
def qualifyingSentences (transcript : String) : List String :=
  ((splitRuns punctChar transcript.data).map String.mk).filter
    (fun s => decide (20 < (jsTrim s).length))

/-- `YouTubeService.generateBasicSummary` (the analyze-video API route
carries an identical copy of this function). -/
def generateBasicSummary (transcript : String) : String :=
  let sentences := qualifyingSentences transcript
  if sentences.length ≤ 3 then String.mk (transcript.data.take 300) ++ "..."
  else jsTrim (sentences.headD "") ++ ". " ++ jsTrim (sentences.getLastD "") ++ "."

/-- `YouTubeService.analyzeVideoContent`: the AI route call is the oracle;
the `catch` branch is the heuristic fallback, so the function is total and
never raises. -/
def analyzeVideoContent (_metadata : VideoMetadata) (fullTranscript : String)
    (_transcript : List TranscriptSegment) (ai : AIOutcome) : YouTubeAnalysis :=
  match ai with
  | .parsed a =>
    { themes := jsOrList a.themes []
      key_concepts := some (jsOrList a.key_concepts [])
      summary := a.summary
      transcript_summary := a.transcript_summary
      suggested_actions := some (jsOrList a.suggested_actions [])
      key_timestamps := some (jsOrList a.key_timestamps [])
      chapters := some (jsOrList a.chapters [])
      complexity_score := some (jsOrNum a.complexity_score (1 / 2))
      confidence_score := jsOrNum a.confidence_score (4 / 5)
      sentiment := jsOrStr a.sentiment "neutral" }
  | .failure =>
    { themes := extractBasicThemes fullTranscript
      key_concepts := none
      summary := some (generateBasicSummary fullTranscript)
      transcript_summary := some (generateBasicSummary fullTranscript)
      suggested_actions := none
      key_timestamps := none
      chapters := none
      complexity_score := none
      confidence_score := 3 / 10
      sentiment := "neutral" }

/-- One `(stage, percentage, message)` report to the progress callback. -/
abbrev ProgressEvent := String × Nat × String

/-- Results of the external calls of one `processVideo` run. -/
structure PipelineOracle where
  metadataFetch : MetadataFetch
  now : String
  transcriptApi : Option (List TranscriptSegment)
  ai : AIOutcome
  deriving DecidableEq

/-- The composite result assembled by `processVideo`. -/
structure ProcessResult where
  metadata : VideoMetadata
  transcript : List TranscriptSegment
  fullTranscript : String
  analysis : YouTubeAnalysis
  deriving DecidableEq

/-- `YouTubeService.processVideo`, with the reports to the progress callback
collected in a list, in call order. -/
def processVideo (url : String) (o : PipelineOracle) :
    Except AppError ProcessResult × List ProgressEvent :=
  match extractVideoId url with
  | none => (.error ⟨"Invalid YouTube URL", "VALIDATION_ERROR"⟩, [])
  | some videoId =>
    let ev1 : ProgressEvent := ("fetching", 10, "Fetching video information...")
    match getVideoMetadata videoId o.now o.metadataFetch with
    | .error e => (.error e, [ev1])
    | .ok metadata =>
      let ev2 : ProgressEvent := ("transcribing", 30, "Getting video transcript...")
      match getTranscript o.transcriptApi with
      | .error e => (.error e, [ev1, ev2])
      | .ok transcript =>
        let fullTranscript := transcriptToText transcript
        let ev3 : ProgressEvent := ("analyzing", 60, "Analyzing content with AI...")
        let analysis := analyzeVideoContent metadata fullTranscript transcript o.ai
        let ev4 : ProgressEvent := ("complete", 100, "Video processing complete!")
        (.ok ⟨metadata, transcript, fullTranscript, analysis⟩, [ev1, ev2, ev3, ev4])

/-- Decimal digit character. -/
def digitChar : Nat → Char
  | 0 => '0'
  | 1 => '1'
  | 2 => '2'
  | 3 => '3'
  | 4 => '4'
  | 5 => '5'
  | 6 => '6'
  | 7 => '7'
  | 8 => '8'
  | 9 => '9'
  | _ => '0'

/-- Decimal digits of `n`, most significant first; any `fuel > n` is enough
for the recursion to finish. -/
def natToCharsAux : Nat → Nat → List Char
  | 0, _ => []
  | fuel + 1, n =>
    if n < 10 then [digitChar n] else natToCharsAux fuel (n / 10) ++ [digitChar (n % 10)]

/-- The decimal string of `n`, as JavaScript template interpolation writes a
non-negative integer. -/
def natToChars (n : Nat) : List Char := natToCharsAux (n + 1) n

/-- `String.padStart(2, "0")`. -/
def padStart2 (l : List Char) : List Char := List.replicate (2 - l.length) '0' ++ l

/-- `YouTubeService.formatTimestamp` at a non-negative integer number of
seconds (the claims quantify over exactly these inputs, on which
`Math.floor` and `%` agree with natural division and remainder). -/
def formatTimestamp (seconds : Nat) : String :=
  let hours := seconds / 3600
  let minutes := seconds % 3600 / 60
  let secs := seconds % 60
  if 0 < hours then
    String.mk (natToChars hours ++ ':' :: padStart2 (natToChars minutes)
      ++ ':' :: padStart2 (natToChars secs))
  else
    String.mk (natToChars minutes ++ ':' :: padStart2 (natToChars secs))

end YouTubeService

namespace AnalyzeVideoApi

/-- `extractBasicThemes` of the analyze-video API route: identical to the
client copy except that it keeps only words longer than 4 characters. -/
def extractBasicThemes (transcript : String) : List String :=
  ((sortDesc (jsEntries (buildFreq (qualifyingWords 4 transcript)))).take 5).map Prod.fst

end AnalyzeVideoApi

namespace TranscriptApi

/-- One entry of the `captionTracks` manifest. -/
structure CaptionTrack where
  languageCode : Option String
  baseUrl : Option String
  deriving DecidableEq

/-- Outcome of fetching the public watch page: a non-success response, or a
page on which the `captionTracks` manifest either was (`some`) or was not
(`none`) found and parsed. -/
inductive PageFetch where
  | notOk
  | ok (manifest : Option (List CaptionTrack))
  deriving DecidableEq

/-- External calls of one `fetchYouTubeTranscript` run; `trackFetch` is the
fetched and parsed timed-text document of the chosen caption track, `none`
when that request returns a non-success status. -/
structure FetchOracle where
  page : PageFetch
  trackFetch : Option (List TranscriptSegment)
  deriving DecidableEq

/-- The `try` block of `fetchYouTubeTranscript`: here the outcomes are still
distinguished, by the message of the thrown error. -/
def innerFetch (o : FetchOracle) : Except String (List TranscriptSegment) :=
  match o.page with
  | .notOk => .error "Video unavailable"
  | .ok none => .error "No transcript available"
  | .ok (some tracks) =>
    match tracks with
    | [] => .error "No transcript available"
    | t0 :: _ =>
      let track := (tracks.find? (fun t =>
        t.languageCode == some "en" || t.languageCode == some "en-US")).getD t0
      match track.baseUrl with
      | none => .error "No transcript available"
      | some u =>
        if u = "" then .error "No transcript available"
        else
          match o.trackFetch with
          | none => .error "Failed to fetch transcript data"
          | some segments => .ok segments

/-- `fetchYouTubeTranscript`: its own trailing `catch` turns every error of
the inner block into the empty segment list. -/
def fetchYouTubeTranscript (o : FetchOracle) : List TranscriptSegment :=
  match innerFetch o with
  | .ok segments => segments
  | .error _ => []

/-- HTTP response of the transcript API route. -/
structure ApiResponse where
  status : Nat
  transcript : Option (List TranscriptSegment)
  errorCode : Option String
  deriving DecidableEq

/-- The route handler of `src/pages/api/youtube/transcript.ts`. Because
`fetchYouTubeTranscript` catches every error it raises internally and
returns a list, the `catch` of the handler (the branches answering 404 with
`NO_TRANSCRIPT` or `VIDEO_UNAVAILABLE`) is unreachable, and a present,
non-empty `videoId` always yields a 200 response. -/
def handler (method : String) (videoId : Option String) (o : FetchOracle) : ApiResponse :=
  if method ≠ "POST" then ⟨405, none, none⟩
  else
    match videoId with
    | none => ⟨400, none, none⟩
    | some v =>
      if v = "" then ⟨400, none, none⟩
      else ⟨200, some (fetchYouTubeTranscript o), none⟩

end TranscriptApi

/-- The ranking in the exact words of claim C5: frequencies of the distinct
qualifying words, ranked descending with ties broken purely by encounter
order (a stable descending sort of the encounter-ordered entries, with no
array-index reordering), cut to the top 5. -/
def encounterOrderThemes (thr : Nat) (t : String) : List String :=
  let ws := qualifyingWords thr t
  ((sortDesc ((firstOccur ws).map (fun w => (w, ws.count w)))).take 5).map Prod.fst

/-- Claim-side theme ranking for the amended claim C5: the distinct
qualifying words, each paired with its frequency, enumerated as
`Object.entries` does (canonical array-index keys first in ascending
numeric order, then the remaining words in encounter order), ranked by
frequency descending with ties broken by that enumeration order, and cut
to the top 5. -/
def specThemes (thr : Nat) (t : String) : List String :=
  let ws := qualifyingWords thr t
  ((sortDesc (jsEntries ((firstOccur ws).map (fun w => (w, ws.count w))))).take 5).map Prod.fst

/-- The four URL shapes accepted by `YOUTUBE_URL_REGEX`. -/
def urlShapes : List (List Char) :=
  [YouTubeService.litWatch, YouTubeService.litShort, YouTubeService.litEmbed,
    YouTubeService.litV]

/-- A URL contains the pattern of `YOUTUBE_URL_REGEX`: somewhere in it one
of the four shapes is followed by 11 identifier characters. -/
def containsIdPattern (url : String) : Prop :=
  ∃ pre shape idc suf, shape ∈ urlShapes ∧ idc.length = 11 ∧
    idc.all YouTubeService.idChar = true ∧ url.data = pre ++ shape ++ idc ++ suf

/-- Decidable scan for the same pattern. -/
def hasIdPattern : List Char → Bool
  | [] => false
  | c :: cs => (YouTubeService.tryAt (c :: cs)).isSome || hasIdPattern cs

/-- Split on the colon character; claim-side helper used to re-derive the
fields of a formatted timestamp. -/
def splitColon : List Char → List (List Char)
  | [] => [[]]
  | c :: cs => if c = ':' then [] :: splitColon cs else (splitColon cs).modifyHead (fun h => c :: h)

/-- Re-derive the number of seconds from a formatted timestamp, as the claim
describes: hours, minutes and seconds read back from the colon-separated
fields. -/
def parseTimestamp (s : String) : Option Nat :=
  match splitColon s.data with
  | [m, sec] => some (charsToNat m * 60 + charsToNat sec)
  | [h, m, sec] => some (charsToNat h * 3600 + charsToNat m * 60 + charsToNat sec)
  | _ => none


/-! ## Helper lemmas about decimal strings and timestamp parsing -/

theorem charsToNat_append_digit (l : List Char) (c : Char) :
    charsToNat (l ++ [c]) = charsToNat l * 10 + (c.toNat - 48) := by
  simp [charsToNat, List.foldl_append]

theorem charsToNat_cons_zero (l : List Char) : charsToNat ('0' :: l) = charsToNat l := by
  simp [charsToNat]

theorem charsToNat_replicate_zero (k : Nat) (l : List Char) :
    charsToNat (List.replicate k '0' ++ l) = charsToNat l := by
  induction k with
  | zero => simp
  | succ k ih => rw [List.replicate_succ, List.cons_append, charsToNat_cons_zero, ih]

theorem charsToNat_padStart2 (l : List Char) : charsToNat (YouTubeService.padStart2 l) = charsToNat l :=
  charsToNat_replicate_zero _ _

theorem digitChar_toNat {d : Nat} (h : d < 10) : (YouTubeService.digitChar d).toNat = 48 + d := by
  interval_cases d <;> rfl

theorem digitChar_ne_colon (d : Nat) : YouTubeService.digitChar d ≠ ':' := by
  unfold YouTubeService.digitChar
  split <;> decide

theorem charsToNat_natToCharsAux : ∀ fuel n, n < fuel →
    charsToNat (YouTubeService.natToCharsAux fuel n) = n := by
  intro fuel
  induction fuel with
  | zero => intro n h; omega
  | succ f ih =>
    intro n h
    rw [YouTubeService.natToCharsAux]
    by_cases h10 : n < 10
    · rw [if_pos h10]
      have : charsToNat [YouTubeService.digitChar n] = (YouTubeService.digitChar n).toNat - 48 := by
        simp [charsToNat]
      rw [this, digitChar_toNat h10]
      omega
    · rw [if_neg h10]
      have hn : 10 ≤ n := by omega
      have hdiv : n / 10 < f := by
        have h1 : n / 10 < n := Nat.div_lt_self (by omega) (by norm_num)
        omega
      rw [charsToNat_append_digit, ih _ hdiv, digitChar_toNat (Nat.mod_lt n (by norm_num))]
      omega

theorem charsToNat_natToChars (n : Nat) : charsToNat (YouTubeService.natToChars n) = n :=
  charsToNat_natToCharsAux (n + 1) n (Nat.lt_succ_self n)

theorem natToCharsAux_ne_colon : ∀ fuel n c, c ∈ YouTubeService.natToCharsAux fuel n →
    c ≠ ':' := by
  intro fuel
  induction fuel with
  | zero => intro n c h; simp [YouTubeService.natToCharsAux] at h
  | succ f ih =>
    intro n c h
    rw [YouTubeService.natToCharsAux] at h
    by_cases h10 : n < 10
    · rw [if_pos h10] at h
      simp only [List.mem_singleton] at h
      subst h
      exact digitChar_ne_colon n
    · rw [if_neg h10] at h
      rcases List.mem_append.mp h with h1 | h1
      · exact ih _ _ h1
      · simp only [List.mem_singleton] at h1
        subst h1
        exact digitChar_ne_colon _

theorem natToChars_ne_colon (n : Nat) : ∀ c ∈ YouTubeService.natToChars n, c ≠ ':' :=
  fun c hc => natToCharsAux_ne_colon (n + 1) n c hc

theorem YouTubeService.padStart2_ne_colon {l : List Char} (h : ∀ c ∈ l, c ≠ ':') :
    ∀ c ∈ YouTubeService.padStart2 l, c ≠ ':' := by
  intro c hc
  rcases List.mem_append.mp hc with h1 | h1
  · have := List.eq_of_mem_replicate h1
    subst this
    decide
  · exact h c h1

theorem splitColon_all_ne {A : List Char} (h : ∀ c ∈ A, c ≠ ':') : splitColon A = [A] := by
  induction A with
  | nil => rfl
  | cons c cs ih =>
    have hc : c ≠ ':' := h c (by simp)
    rw [splitColon, if_neg hc, ih (fun x hx => h x (by simp [hx]))]
    rfl

theorem splitColon_append {A : List Char} (rest : List Char) (h : ∀ c ∈ A, c ≠ ':') :
    splitColon (A ++ ':' :: rest) = A :: splitColon rest := by
  induction A with
  | nil => simp [splitColon]
  | cons c cs ih =>
    have hc : c ≠ ':' := h c (by simp)
    rw [List.cons_append, splitColon, if_neg hc, ih (fun x hx => h x (by simp [hx]))]
    rfl

/-- Claim C9: `formatTimestamp 0 = "0:00"`, `formatTimestamp 3661 = "1:01:01"`,
and for every non-negative integer number of seconds, re-deriving hours,
minutes and seconds from the formatted string reconstructs the input. -/
theorem formatTimestamp_round_trip :
    YouTubeService.formatTimestamp 0 = "0:00" ∧
    YouTubeService.formatTimestamp 3661 = "1:01:01" ∧
    ∀ s : Nat, parseTimestamp (YouTubeService.formatTimestamp s) = some s := by
  refine ⟨by decide, by decide, ?_⟩
  intro s
  have hm : s % 3600 / 60 < 60 := by omega
  have hs : s % 60 < 60 := by omega
  simp only [YouTubeService.formatTimestamp]
  by_cases hh : 0 < s / 3600
  · rw [if_pos hh]
    unfold parseTimestamp
    have hdata : (String.mk (YouTubeService.natToChars (s / 3600)
        ++ ':' :: YouTubeService.padStart2 (YouTubeService.natToChars (s % 3600 / 60))
        ++ ':' :: YouTubeService.padStart2 (YouTubeService.natToChars (s % 60)))).data
        = YouTubeService.natToChars (s / 3600)
          ++ ':' :: (YouTubeService.padStart2 (YouTubeService.natToChars (s % 3600 / 60))
          ++ ':' :: YouTubeService.padStart2 (YouTubeService.natToChars (s % 60))) := by
      simp
    rw [hdata, splitColon_append _ (natToChars_ne_colon _),
      splitColon_append _ (YouTubeService.padStart2_ne_colon (natToChars_ne_colon _)),
      splitColon_all_ne (YouTubeService.padStart2_ne_colon (natToChars_ne_colon _))]
    simp only [charsToNat_natToChars, charsToNat_padStart2]
    congr 1
    omega
  · rw [if_neg hh]
    unfold parseTimestamp
    have hdata : (String.mk (YouTubeService.natToChars (s % 3600 / 60)
        ++ ':' :: YouTubeService.padStart2 (YouTubeService.natToChars (s % 60)))).data
        = YouTubeService.natToChars (s % 3600 / 60)
          ++ ':' :: YouTubeService.padStart2 (YouTubeService.natToChars (s % 60)) := by
      simp
    rw [hdata, splitColon_append _ (natToChars_ne_colon _),
      splitColon_all_ne (YouTubeService.padStart2_ne_colon (natToChars_ne_colon _))]
    simp only [charsToNat_natToChars, charsToNat_padStart2]
    congr 1
    omega


/-! ## The fallback summary (claim C6) -/

/-- Claim C6: with at most 3 qualifying sentences (split on punctuation,
filtered to trimmed length above 20), `generateBasicSummary` returns a
prefix of at most 300 characters followed by an ellipsis; with 4 or more,
it returns exactly the trimmed first sentence, a period and a space, the
trimmed last sentence and a period. -/
theorem generateBasicSummary_spec (t : String) :
    ((YouTubeService.qualifyingSentences t).length ≤ 3 →
      YouTubeService.generateBasicSummary t = String.mk (t.data.take 300) ++ "..." ∧
      (t.data.take 300).length ≤ 300) ∧
    (4 ≤ (YouTubeService.qualifyingSentences t).length →
      YouTubeService.generateBasicSummary t =
        jsTrim ((YouTubeService.qualifyingSentences t).headD "") ++ ". " ++
        jsTrim ((YouTubeService.qualifyingSentences t).getLastD "") ++ ".") := by
  constructor
  · intro h
    refine ⟨?_, ?_⟩
    · simp only [YouTubeService.generateBasicSummary]
      rw [if_pos h]
    · simp [List.length_take_le]
  · intro h
    simp only [YouTubeService.generateBasicSummary]
    rw [if_neg (by omega)]

/-- Witness for claim C6: both branches evaluated at concrete transcripts. -/
theorem generateBasicSummary_spec_witness :
    YouTubeService.generateBasicSummary "Hi." = "Hi...." ∧
    YouTubeService.generateBasicSummary
        "aaaaaaaaaaaaaaaaaaaaaaaaa. bbbbbbbbbbbbbbbbbbbbbbbbb. ccccccccccccccccccccccccc. ddddddddddddddddddddddddd."
      = "aaaaaaaaaaaaaaaaaaaaaaaaa. ddddddddddddddddddddddddd." := by
  constructor
  · rw [((generateBasicSummary_spec "Hi.").1 (by decide)).1]
    decide
  · rw [(generateBasicSummary_spec
      "aaaaaaaaaaaaaaaaaaaaaaaaa. bbbbbbbbbbbbbbbbbbbbbbbbb. ccccccccccccccccccccccccc. ddddddddddddddddddddddddd.").2
      (by decide)]
    decide

/-! ## Metadata fetching (claim C7) -/

/-- Claim C7: `getVideoMetadata` raises `YOUTUBE_FETCH_FAILED` exactly when
the embed lookup request fails or returns a non-success response; on every
successful response it succeeds, filling a missing title with
`Unknown Title`, a missing channel with `Unknown Channel`, and always
reporting duration 0. (No retry and no fallback exist in the model: the
function consumes a single fetch outcome.) -/
theorem getVideoMetadata_spec (videoId now : String) (f : MetadataFetch) :
    ((f = .networkError ∨ f = .httpNotOk) →
      YouTubeService.getVideoMetadata videoId now f =
        .error ⟨"Failed to fetch video metadata", "YOUTUBE_FETCH_FAILED"⟩) ∧
    (∀ d, f = .ok d →
      ∃ m, YouTubeService.getVideoMetadata videoId now f = .ok m ∧
        m.duration = 0 ∧
        (d.title = none → m.title = "Unknown Title") ∧
        (d.author_name = none → m.channel = "Unknown Channel")) := by
  constructor
  · rintro (rfl | rfl) <;> rfl
  · rintro d rfl
    refine ⟨_, rfl, rfl, ?_, ?_⟩ <;>
      · intro h
        simp [YouTubeService.getVideoMetadata, h, jsOrStr]

/-- Witness for claim C7: a non-success response errors with the code
`YOUTUBE_FETCH_FAILED`, and a successful but empty body yields the default
title and channel with duration 0. -/
theorem getVideoMetadata_spec_witness :
    YouTubeService.getVideoMetadata "dQw4w9WgXcQ" "2024-01-01T00:00:00.000Z" .httpNotOk =
      .error ⟨"Failed to fetch video metadata", "YOUTUBE_FETCH_FAILED"⟩ ∧
    ∃ m, YouTubeService.getVideoMetadata "dQw4w9WgXcQ" "2024-01-01T00:00:00.000Z"
        (.ok ⟨none, none, none, none⟩) = .ok m ∧
      m.duration = 0 ∧ m.title = "Unknown Title" ∧ m.channel = "Unknown Channel" := by
  constructor
  · exact (getVideoMetadata_spec "dQw4w9WgXcQ" "2024-01-01T00:00:00.000Z" .httpNotOk).1
      (Or.inr rfl)
  · obtain ⟨m, h1, h2, h3, h4⟩ := (getVideoMetadata_spec "dQw4w9WgXcQ"
      "2024-01-01T00:00:00.000Z" (.ok ⟨none, none, none, none⟩)).2 ⟨none, none, none, none⟩ rfl
    exact ⟨m, h1, h2, h3 rfl, h4 rfl⟩

/-! ## Success-path defaults of the analyzer (claim C10) -/

/-- Claim C10: on the successful parse path, a missing, null or zero
confidence score becomes 0.8 and a missing, null or zero complexity score
becomes 0.5; a confidence score of exactly 0 is never propagated. -/
theorem analyzeVideoContent_defaults (md : VideoMetadata) (t : String)
    (segs : List TranscriptSegment) (a : ParsedAnalysis) :
    ((a.confidence_score = none ∨ a.confidence_score = some 0) →
      (YouTubeService.analyzeVideoContent md t segs (.parsed a)).confidence_score = 4 / 5) ∧
    ((a.complexity_score = none ∨ a.complexity_score = some 0) →
      (YouTubeService.analyzeVideoContent md t segs (.parsed a)).complexity_score =
        some (1 / 2)) ∧
    (YouTubeService.analyzeVideoContent md t segs (.parsed a)).confidence_score ≠ 0 := by
  refine ⟨?_, ?_, ?_⟩
  · rintro (h | h) <;> simp [YouTubeService.analyzeVideoContent, jsOrNum, h]
  · rintro (h | h) <;> simp [YouTubeService.analyzeVideoContent, jsOrNum, h]
  · show jsOrNum a.confidence_score (4 / 5) ≠ 0
    unfold jsOrNum
    cases a.confidence_score with
    | none => norm_num
    | some q =>
      show (if q = 0 then (4 / 5 : ℚ) else q) ≠ 0
      by_cases hq : q = 0
      · rw [if_pos hq]; norm_num
      · rw [if_neg hq]; exact hq

/-- Witness for claim C10, at a parsed response whose scores are absent. -/
theorem analyzeVideoContent_defaults_witness :
    (YouTubeService.analyzeVideoContent ⟨"T", "C", 0, "d", "u", none⟩ "t" []
        (.parsed ⟨none, none, none, none, none, none, none, none, none, none⟩)).confidence_score
      = 4 / 5 ∧
    (YouTubeService.analyzeVideoContent ⟨"T", "C", 0, "d", "u", none⟩ "t" []
        (.parsed ⟨none, none, none, none, none, none, none, none, none, none⟩)).complexity_score
      = some (1 / 2) ∧
    (YouTubeService.analyzeVideoContent ⟨"T", "C", 0, "d", "u", none⟩ "t" []
        (.parsed ⟨none, none, none, none, none, none, none, none, none, none⟩)).confidence_score
      ≠ 0 :=
  ⟨(analyzeVideoContent_defaults ⟨"T", "C", 0, "d", "u", none⟩ "t" []
      ⟨none, none, none, none, none, none, none, none, none, none⟩).1 (Or.inl rfl),
    (analyzeVideoContent_defaults ⟨"T", "C", 0, "d", "u", none⟩ "t" []
      ⟨none, none, none, none, none, none, none, none, none, none⟩).2.1 (Or.inl rfl),
    (analyzeVideoContent_defaults ⟨"T", "C", 0, "d", "u", none⟩ "t" []
      ⟨none, none, none, none, none, none, none, none, none, none⟩).2.2⟩

/-! ## Collapse of the transcript outcome model (claim C3) -/

/-- Claim C3 evaluated on the code: the inner block of the transcript fetch
distinguishes a video-unavailable page fetch from a missing caption
manifest, but its own catch maps both to the empty segment list, so the
route answers 200 with an empty transcript in both cases and for every
oracle; the two error outcomes never reach the orchestrator and are
indistinguishable from the empty-segments outcome. -/
theorem transcript_outcomes_collapsed :
    TranscriptApi.innerFetch ⟨.notOk, none⟩ = .error "Video unavailable" ∧
    TranscriptApi.innerFetch ⟨.ok none, none⟩ = .error "No transcript available" ∧
    TranscriptApi.fetchYouTubeTranscript ⟨.notOk, none⟩ = [] ∧
    TranscriptApi.fetchYouTubeTranscript ⟨.ok none, none⟩ = [] ∧
    TranscriptApi.handler "POST" (some "dQw4w9WgXcQ") ⟨.notOk, none⟩ = ⟨200, some [], none⟩ ∧
    TranscriptApi.handler "POST" (some "dQw4w9WgXcQ") ⟨.ok none, none⟩ = ⟨200, some [], none⟩ ∧
    (∀ o : TranscriptApi.FetchOracle,
      TranscriptApi.handler "POST" (some "dQw4w9WgXcQ") o =
        ⟨200, some (TranscriptApi.fetchYouTubeTranscript o), none⟩) := by
  refine ⟨rfl, rfl, rfl, rfl, by decide, by decide, ?_⟩
  intro o
  rfl

/-! ## The end-to-end scenario (claim C1) -/

/-- Counterexample to claim C1 as stated: with the transcript source
reporting the numbers 1000/2000 and 3000/1000, the pipeline does not
produce segments with start 1 and 3 — no millisecond-to-second conversion
exists anywhere in the pipeline. -/
theorem pipeline_ms_claim_false :
    ¬ ((YouTubeService.processVideo "https://www.youtube.com/watch?v=dQw4w9WgXcQ"
        ⟨.ok ⟨some "X", some "Y", none, none⟩, "2024-01-01T00:00:00.000Z",
          some [⟨"Hello", 1000, 2000⟩, ⟨"World", 3000, 1000⟩], .failure⟩).1.toOption.map
        (fun r => (r.fullTranscript, r.transcript))
      = some ("Hello World", [⟨"Hello", 1, 2⟩, ⟨"World", 3, 1⟩])) := by
  decide

/-- Claim C1 as amended: the pipeline passes the segments of the transcript
source through unchanged (so the source numbers 1000/2000 and 3000/1000
reappear verbatim), space-joins the segment texts in order into
`fullTranscript = "Hello World"`, and carries the looked-up title and
channel. -/
theorem pipeline_passthrough_scenario :
    (YouTubeService.processVideo "https://www.youtube.com/watch?v=dQw4w9WgXcQ"
        ⟨.ok ⟨some "X", some "Y", none, none⟩, "2024-01-01T00:00:00.000Z",
          some [⟨"Hello", 1000, 2000⟩, ⟨"World", 3000, 1000⟩], .failure⟩).1.toOption.map
        (fun r => (r.metadata.title, r.metadata.channel, r.fullTranscript, r.transcript))
      = some ("X", "Y", "Hello World", [⟨"Hello", 1000, 2000⟩, ⟨"World", 3000, 1000⟩]) := by
  decide


/-! ## Progress reporting (claim C8) and the analyzer fallback (claim C2) -/

/-- Claim C8: on every successful run (valid URL, successful metadata fetch,
successful transcript response; the analyzer never fails), the progress
callback sees exactly fetching 10, transcribing 30, analyzing 60 and
complete 100, in that order — in particular fetching strictly before
transcribing. -/
theorem processVideo_progress (url : String) (o : YouTubeService.PipelineOracle)
    (d : OEmbedData) (ts : List TranscriptSegment)
    (hurl : (YouTubeService.extractVideoId url).isSome = true)
    (hm : o.metadataFetch = .ok d) (ht : o.transcriptApi = some ts) :
    (∃ r, (YouTubeService.processVideo url o).1 = .ok r) ∧
    (YouTubeService.processVideo url o).2 =
      [("fetching", 10, "Fetching video information..."),
        ("transcribing", 30, "Getting video transcript..."),
        ("analyzing", 60, "Analyzing content with AI..."),
        ("complete", 100, "Video processing complete!")] := by
  obtain ⟨v, hv⟩ := Option.isSome_iff_exists.mp hurl
  unfold YouTubeService.processVideo
  rw [hv, hm, ht]
  exact ⟨⟨_, rfl⟩, rfl⟩

/-- Witness for claim C8, at a concrete URL and oracle. -/
theorem processVideo_progress_witness :
    (∃ r, (YouTubeService.processVideo "https://youtu.be/dQw4w9WgXcQ"
        ⟨.ok ⟨some "X", some "Y", none, none⟩, "2024-01-01T00:00:00.000Z", some [],
          .failure⟩).1 = .ok r) ∧
    (YouTubeService.processVideo "https://youtu.be/dQw4w9WgXcQ"
        ⟨.ok ⟨some "X", some "Y", none, none⟩, "2024-01-01T00:00:00.000Z", some [],
          .failure⟩).2 =
      [("fetching", 10, "Fetching video information..."),
        ("transcribing", 30, "Getting video transcript..."),
        ("analyzing", 60, "Analyzing content with AI..."),
        ("complete", 100, "Video processing complete!")] :=
  processVideo_progress "https://youtu.be/dQw4w9WgXcQ"
    ⟨.ok ⟨some "X", some "Y", none, none⟩, "2024-01-01T00:00:00.000Z", some [], .failure⟩
    ⟨some "X", some "Y", none, none⟩ [] (by decide) rfl rfl

/-- Claim C2: whenever the AI call fails or its body does not parse as JSON
(both are the `failure` outcome), the analyzer returns — it cannot raise,
being a total function — the heuristic analysis with confidence score
exactly 0.3, neutral sentiment and the word-frequency fallback themes of
the given transcript; and an ingestion whose other stages succeed still
completes successfully with that degraded analysis. -/
theorem analyzeVideoContent_fallback (md : VideoMetadata) (t : String)
    (segs : List TranscriptSegment) :
    (YouTubeService.analyzeVideoContent md t segs .failure).confidence_score = 3 / 10 ∧
    (YouTubeService.analyzeVideoContent md t segs .failure).sentiment = "neutral" ∧
    (YouTubeService.analyzeVideoContent md t segs .failure).themes =
      YouTubeService.extractBasicThemes t ∧
    ∀ (url : String) (o : YouTubeService.PipelineOracle) (d : OEmbedData)
      (ts : List TranscriptSegment),
      (YouTubeService.extractVideoId url).isSome = true → o.metadataFetch = .ok d →
      o.transcriptApi = some ts → o.ai = .failure →
      ∃ r, (YouTubeService.processVideo url o).1 = .ok r ∧
        r.analysis.confidence_score = 3 / 10 ∧ r.analysis.sentiment = "neutral" ∧
        r.analysis.themes = YouTubeService.extractBasicThemes r.fullTranscript := by
  refine ⟨rfl, rfl, rfl, ?_⟩
  intro url o d ts hurl hm ht hai
  obtain ⟨v, hv⟩ := Option.isSome_iff_exists.mp hurl
  unfold YouTubeService.processVideo
  rw [hv, hm, ht, hai]
  exact ⟨_, rfl, rfl, rfl, rfl⟩

/-- Witness for claim C2, at a concrete transcript and oracle. -/
theorem analyzeVideoContent_fallback_witness :
    (YouTubeService.analyzeVideoContent ⟨"T", "C", 0, "d", "u", none⟩ "deep deep dive" []
        .failure).confidence_score = 3 / 10 ∧
    (YouTubeService.analyzeVideoContent ⟨"T", "C", 0, "d", "u", none⟩ "deep deep dive" []
        .failure).sentiment = "neutral" ∧
    (YouTubeService.analyzeVideoContent ⟨"T", "C", 0, "d", "u", none⟩ "deep deep dive" []
        .failure).themes = YouTubeService.extractBasicThemes "deep deep dive" ∧
    ∃ r, (YouTubeService.processVideo "https://youtu.be/dQw4w9WgXcQ"
        ⟨.ok ⟨some "X", some "Y", none, none⟩, "2024-01-01T00:00:00.000Z",
          some [⟨"Hello", 1, 2⟩], .failure⟩).1 = .ok r ∧
      r.analysis.confidence_score = 3 / 10 ∧ r.analysis.sentiment = "neutral" ∧
      r.analysis.themes = YouTubeService.extractBasicThemes r.fullTranscript := by
  obtain ⟨h1, h2, h3, h4⟩ :=
    analyzeVideoContent_fallback ⟨"T", "C", 0, "d", "u", none⟩ "deep deep dive" []
  exact ⟨h1, h2, h3, h4 "https://youtu.be/dQw4w9WgXcQ"
    ⟨.ok ⟨some "X", some "Y", none, none⟩, "2024-01-01T00:00:00.000Z",
      some [⟨"Hello", 1, 2⟩], .failure⟩
    ⟨some "X", some "Y", none, none⟩ [⟨"Hello", 1, 2⟩] (by decide) rfl rfl rfl⟩


/-! ## The URL identifier extractor (claim C4) -/

theorem matchLit_append (lit rest : List Char) :
    YouTubeService.matchLit lit (lit ++ rest) = some rest := by
  induction lit with
  | nil => rfl
  | cons c cs ih => simpa [YouTubeService.matchLit] using ih

theorem matchLit_eq_some {lit l rest : List Char}
    (h : YouTubeService.matchLit lit l = some rest) : l = lit ++ rest := by
  induction lit generalizing l with
  | nil =>
    rw [YouTubeService.matchLit] at h
    cases h
    rfl
  | cons c cs ih =>
    match l with
    | [] => cases h
    | x :: xs =>
      rw [YouTubeService.matchLit] at h
      by_cases hx : x = c
      · subst hx
        rw [if_pos rfl] at h
        rw [List.cons_append, ih h]
      · rw [if_neg hx] at h
        cases h

theorem grab11_eq_some {l v : List Char} (h : YouTubeService.grab11 l = some v) :
    v.length = 11 ∧ v.all YouTubeService.idChar = true ∧ l = v ++ l.drop 11 := by
  unfold YouTubeService.grab11 at h
  by_cases hc : (l.take 11).length = 11 ∧ (l.take 11).all YouTubeService.idChar = true
  · rw [if_pos hc] at h
    cases h
    exact ⟨hc.1, hc.2, (List.take_append_drop 11 l).symm⟩
  · rw [if_neg hc] at h
    cases h

theorem grab11_append {idc : List Char} (suf : List Char) (h11 : idc.length = 11)
    (hall : idc.all YouTubeService.idChar = true) :
    YouTubeService.grab11 (idc ++ suf) = some idc := by
  unfold YouTubeService.grab11
  have htake : (idc ++ suf).take 11 = idc := by
    rw [← h11]
    exact List.take_left idc suf
  rw [htake, if_pos ⟨h11, hall⟩]

theorem tryAt_watch (rest : List Char) :
    YouTubeService.tryAt (YouTubeService.litWatch ++ rest) = YouTubeService.grab11 rest := by
  show YouTubeService.tryAt ('y' :: 'o' :: 'u' :: 't' :: 'u' :: 'b' :: 'e' :: '.' :: 'c' ::
    'o' :: 'm' :: '/' :: 'w' :: 'a' :: 't' :: 'c' :: 'h' :: '?' :: 'v' :: '=' :: rest)
    = YouTubeService.grab11 rest
  unfold YouTubeService.tryAt
  simp only [YouTubeService.litWatch, YouTubeService.litShort, YouTubeService.litEmbed,
    YouTubeService.litV, YouTubeService.matchLit, if_true, if_false, reduceIte]
  rcases hg : YouTubeService.grab11 rest with _ | v <;> simp [hg]

theorem tryAt_short (rest : List Char) :
    YouTubeService.tryAt (YouTubeService.litShort ++ rest) = YouTubeService.grab11 rest := by
  show YouTubeService.tryAt ('y' :: 'o' :: 'u' :: 't' :: 'u' :: '.' :: 'b' :: 'e' :: '/' :: rest)
    = YouTubeService.grab11 rest
  unfold YouTubeService.tryAt
  simp only [YouTubeService.litWatch, YouTubeService.litShort, YouTubeService.litEmbed,
    YouTubeService.litV, YouTubeService.matchLit, if_true, if_false, reduceIte]
  rcases hg : YouTubeService.grab11 rest with _ | v <;> simp [hg]

theorem tryAt_embed (rest : List Char) :
    YouTubeService.tryAt (YouTubeService.litEmbed ++ rest) = YouTubeService.grab11 rest := by
  show YouTubeService.tryAt ('y' :: 'o' :: 'u' :: 't' :: 'u' :: 'b' :: 'e' :: '.' :: 'c' ::
    'o' :: 'm' :: '/' :: 'e' :: 'm' :: 'b' :: 'e' :: 'd' :: '/' :: rest)
    = YouTubeService.grab11 rest
  unfold YouTubeService.tryAt
  simp only [YouTubeService.litWatch, YouTubeService.litShort, YouTubeService.litEmbed,
    YouTubeService.litV, YouTubeService.matchLit, if_true, if_false, reduceIte]
  rcases hg : YouTubeService.grab11 rest with _ | v <;> simp [hg]

theorem tryAt_v (rest : List Char) :
    YouTubeService.tryAt (YouTubeService.litV ++ rest) = YouTubeService.grab11 rest := by
  show YouTubeService.tryAt ('y' :: 'o' :: 'u' :: 't' :: 'u' :: 'b' :: 'e' :: '.' :: 'c' ::
    'o' :: 'm' :: '/' :: 'v' :: '/' :: rest)
    = YouTubeService.grab11 rest
  unfold YouTubeService.tryAt
  simp only [YouTubeService.litWatch, YouTubeService.litShort, YouTubeService.litEmbed,
    YouTubeService.litV, YouTubeService.matchLit, if_true, if_false, reduceIte]
  rcases hg : YouTubeService.grab11 rest with _ | v <;> simp [hg]

theorem tryAt_nil : YouTubeService.tryAt [] = none := by decide

theorem scan_of_tryAt {l v : List Char} (h : YouTubeService.tryAt l = some v) :
    YouTubeService.scan l = some v := by
  cases l with
  | nil => rw [tryAt_nil] at h; cases h
  | cons c cs => rw [YouTubeService.scan, h]

theorem tryAt_head_ne_y {c : Char} (cs : List Char) (h : c ≠ 'y') :
    YouTubeService.tryAt (c :: cs) = none := by
  unfold YouTubeService.tryAt
  simp [YouTubeService.litWatch, YouTubeService.litShort, YouTubeService.litEmbed,
    YouTubeService.litV, YouTubeService.matchLit, h]

theorem scan_prefix_no_y {pre : List Char} (rest : List Char) (h : ∀ c ∈ pre, c ≠ 'y') :
    YouTubeService.scan (pre ++ rest) = YouTubeService.scan rest := by
  induction pre with
  | nil => rfl
  | cons c cs ih =>
    rw [List.cons_append, YouTubeService.scan, tryAt_head_ne_y _ (h c (by simp))]
    exact ih (fun x hx => h x (by simp [hx]))

theorem tryAt_eq_some {l v : List Char} (h : YouTubeService.tryAt l = some v) :
    ∃ shape, shape ∈ urlShapes ∧ ∃ rest, l = shape ++ v ++ rest ∧
      v.length = 11 ∧ v.all YouTubeService.idChar = true := by
  have core : ∀ lit : List Char, (YouTubeService.matchLit lit l).bind YouTubeService.grab11
      = some v → ∃ rest, l = lit ++ v ++ rest ∧ v.length = 11 ∧
        v.all YouTubeService.idChar = true := by
    intro lit hb
    rcases hm : YouTubeService.matchLit lit l with _ | after
    · rw [hm] at hb; cases hb
    · rw [hm] at hb
      simp only [Option.some_bind] at hb
      obtain ⟨h11, hall, heq⟩ := grab11_eq_some hb
      refine ⟨after.drop 11, ?_, h11, hall⟩
      rw [matchLit_eq_some hm]
      conv_lhs => rw [heq]
      simp [List.append_assoc]
  unfold YouTubeService.tryAt at h
  rcases h1 : (YouTubeService.matchLit YouTubeService.litWatch l).bind YouTubeService.grab11
    with _ | v1
  · rw [h1] at h
    rcases h2 : (YouTubeService.matchLit YouTubeService.litShort l).bind YouTubeService.grab11
      with _ | v2
    · rw [h2] at h
      rcases h3 : (YouTubeService.matchLit YouTubeService.litEmbed l).bind YouTubeService.grab11
        with _ | v3
      · rw [h3] at h
        exact ⟨YouTubeService.litV, by simp [urlShapes], core _ h⟩
      · rw [h3] at h
        cases h
        exact ⟨YouTubeService.litEmbed, by simp [urlShapes], core _ h3⟩
    · rw [h2] at h
      cases h
      exact ⟨YouTubeService.litShort, by simp [urlShapes], core _ h2⟩
  · rw [h1] at h
    cases h
    exact ⟨YouTubeService.litWatch, by simp [urlShapes], core _ h1⟩

theorem scan_eq_some {l v : List Char} (h : YouTubeService.scan l = some v) :
    ∃ pre rest, l = pre ++ rest ∧ YouTubeService.tryAt rest = some v := by
  induction l with
  | nil => cases h
  | cons c cs ih =>
    rw [YouTubeService.scan] at h
    rcases ht : YouTubeService.tryAt (c :: cs) with _ | v1
    · rw [ht] at h
      obtain ⟨pre, rest, heq, htry⟩ := ih h
      exact ⟨c :: pre, rest, by simp [heq], htry⟩
    · rw [ht] at h
      cases h
      exact ⟨[], c :: cs, by simp, ht⟩

theorem containsIdPattern_of_scan {url : String} {v : List Char}
    (h : YouTubeService.scan url.data = some v) : containsIdPattern url := by
  obtain ⟨pre, rest, heq, htry⟩ := scan_eq_some h
  obtain ⟨shape, hs, rest2, heq2, h11, hall⟩ := tryAt_eq_some htry
  exact ⟨pre, shape, v, rest2, hs, h11, hall, by rw [heq, heq2]; simp [List.append_assoc]⟩

theorem hasIdPattern_append {rest : List Char} (pre : List Char)
    (h : (YouTubeService.tryAt rest).isSome = true) : hasIdPattern (pre ++ rest) = true := by
  induction pre with
  | nil =>
    match rest, h with
    | [], h => rw [tryAt_nil] at h; cases h
    | c :: cs, h => simp [hasIdPattern, h]
  | cons c cs ih => simp [hasIdPattern, ih]

theorem hasIdPattern_of_contains {url : String} (h : containsIdPattern url) :
    hasIdPattern url.data = true := by
  obtain ⟨pre, shape, idc, suf, hs, h11, hall, heq⟩ := h
  have htry : (YouTubeService.tryAt (shape ++ (idc ++ suf))).isSome = true := by
    simp only [urlShapes, List.mem_cons, List.not_mem_nil, or_false] at hs
    rcases hs with rfl | rfl | rfl | rfl <;>
      simp [tryAt_watch, tryAt_short, tryAt_embed, tryAt_v, grab11_append suf h11 hall]
  rw [heq, List.append_assoc, List.append_assoc]
  exact hasIdPattern_append pre htry

/-- Claim C4: for each of the four accepted URL shapes carrying an
11-character identifier of the class `[a-zA-Z0-9_-]` (followed by an
arbitrary remainder), `extractVideoId` returns that identifier; and for
every URL containing no occurrence of the pattern it returns `null`
rather than an error. The embedded function is pure by construction. -/
theorem extractVideoId_spec :
    (∀ id suf : String, id.length = 11 → id.data.all YouTubeService.idChar = true →
      YouTubeService.extractVideoId ("https://www.youtube.com/watch?v=" ++ id ++ suf)
        = some id ∧
      YouTubeService.extractVideoId ("https://youtu.be/" ++ id ++ suf) = some id ∧
      YouTubeService.extractVideoId ("https://www.youtube.com/embed/" ++ id ++ suf)
        = some id ∧
      YouTubeService.extractVideoId ("https://www.youtube.com/v/" ++ id ++ suf) = some id) ∧
    (∀ url : String, ¬ containsIdPattern url → YouTubeService.extractVideoId url = none) := by
  constructor
  · intro id suf h11 hall
    have h11' : id.data.length = 11 := h11
    have hscan : ∀ sh : List Char, sh ∈ urlShapes →
        YouTubeService.scan (sh ++ (id.data ++ suf.data)) = some id.data := by
      intro sh hsh
      apply scan_of_tryAt
      simp only [urlShapes, List.mem_cons, List.not_mem_nil, or_false] at hsh
      rcases hsh with rfl | rfl | rfl | rfl <;>
        simp [tryAt_watch, tryAt_short, tryAt_embed, tryAt_v,
          grab11_append suf.data h11' hall]
    refine ⟨?_, ?_, ?_, ?_⟩
    · unfold YouTubeService.extractVideoId
      have hdata : ("https://www.youtube.com/watch?v=" ++ id ++ suf).data
          = (['h', 't', 't', 'p', 's', ':', '/', '/', 'w', 'w', 'w', '.'] : List Char)
            ++ (YouTubeService.litWatch ++ (id.data ++ suf.data)) := by
        rw [String.data_append, String.data_append,
          show "https://www.youtube.com/watch?v=".data
            = (['h', 't', 't', 'p', 's', ':', '/', '/', 'w', 'w', 'w', '.'] : List Char)
              ++ YouTubeService.litWatch from by decide]
        simp [List.append_assoc]
      rw [hdata, scan_prefix_no_y _ (by decide),
        hscan YouTubeService.litWatch (by simp [urlShapes])]
      rfl
    · unfold YouTubeService.extractVideoId
      have hdata : ("https://youtu.be/" ++ id ++ suf).data
          = (['h', 't', 't', 'p', 's', ':', '/', '/'] : List Char)
            ++ (YouTubeService.litShort ++ (id.data ++ suf.data)) := by
        rw [String.data_append, String.data_append,
          show "https://youtu.be/".data
            = (['h', 't', 't', 'p', 's', ':', '/', '/'] : List Char)
              ++ YouTubeService.litShort from by decide]
        simp [List.append_assoc]
      rw [hdata, scan_prefix_no_y _ (by decide),
        hscan YouTubeService.litShort (by simp [urlShapes])]
      rfl
    · unfold YouTubeService.extractVideoId
      have hdata : ("https://www.youtube.com/embed/" ++ id ++ suf).data
          = (['h', 't', 't', 'p', 's', ':', '/', '/', 'w', 'w', 'w', '.'] : List Char)
            ++ (YouTubeService.litEmbed ++ (id.data ++ suf.data)) := by
        rw [String.data_append, String.data_append,
          show "https://www.youtube.com/embed/".data
            = (['h', 't', 't', 'p', 's', ':', '/', '/', 'w', 'w', 'w', '.'] : List Char)
              ++ YouTubeService.litEmbed from by decide]
        simp [List.append_assoc]
      rw [hdata, scan_prefix_no_y _ (by decide),
        hscan YouTubeService.litEmbed (by simp [urlShapes])]
      rfl
    · unfold YouTubeService.extractVideoId
      have hdata : ("https://www.youtube.com/v/" ++ id ++ suf).data
          = (['h', 't', 't', 'p', 's', ':', '/', '/', 'w', 'w', 'w', '.'] : List Char)
            ++ (YouTubeService.litV ++ (id.data ++ suf.data)) := by
        rw [String.data_append, String.data_append,
          show "https://www.youtube.com/v/".data
            = (['h', 't', 't', 'p', 's', ':', '/', '/', 'w', 'w', 'w', '.'] : List Char)
              ++ YouTubeService.litV from by decide]
        simp [List.append_assoc]
      rw [hdata, scan_prefix_no_y _ (by decide),
        hscan YouTubeService.litV (by simp [urlShapes])]
      rfl
  · intro url hc
    unfold YouTubeService.extractVideoId
    rcases hs : YouTubeService.scan url.data with _ | v
    · rfl
    · exact absurd (containsIdPattern_of_scan hs) hc

/-- Witness for claim C4: a watch-shaped URL with a trailing query yields its
identifier, and a pattern-free string yields `null`. -/
theorem extractVideoId_spec_witness :
    YouTubeService.extractVideoId "https://www.youtube.com/watch?v=dQw4w9WgXcQ&t=42s"
      = some "dQw4w9WgXcQ" ∧
    YouTubeService.extractVideoId "hello world" = none := by
  constructor
  · have h := (extractVideoId_spec.1 "dQw4w9WgXcQ" "&t=42s" (by decide) (by decide)).1
    rw [show ("https://www.youtube.com/watch?v=" ++ "dQw4w9WgXcQ" ++ "&t=42s" : String)
      = "https://www.youtube.com/watch?v=dQw4w9WgXcQ&t=42s" from by decide] at h
    exact h
  · refine extractVideoId_spec.2 "hello world" (fun hc => ?_)
    have hb := hasIdPattern_of_contains hc
    rw [show hasIdPattern "hello world".data = false from by decide] at hb
    cases hb


/-! ## The fallback theme extractors (claim C5) -/

theorem mem_firstOccur {x : String} : ∀ {l : List String}, x ∈ firstOccur l ↔ x ∈ l := by
  intro l
  induction l with
  | nil => simp [firstOccur]
  | cons y ys ih =>
    simp only [firstOccur, List.mem_cons, List.mem_filter, bne_iff_ne, ih]
    by_cases hxy : x = y
    · simp [hxy]
    · simp [hxy]

theorem firstOccur_nodup (l : List String) : (firstOccur l).Nodup := by
  induction l with
  | nil => simp [firstOccur]
  | cons y ys ih =>
    rw [firstOccur]
    refine List.Nodup.cons ?_ (ih.filter _)
    simp [List.mem_filter]

theorem firstOccur_append_singleton (l : List String) (w : String) :
    firstOccur (l ++ [w]) = if w ∈ l then firstOccur l else firstOccur l ++ [w] := by
  induction l with
  | nil => simp [firstOccur]
  | cons y ys ih =>
    by_cases hw : w ∈ ys
    · rw [List.cons_append, firstOccur, ih, if_pos hw, if_pos (by simp [hw]), firstOccur]
    · by_cases hyw : w = y
      · subst hyw
        rw [List.cons_append, firstOccur, ih, if_neg hw, if_pos (by simp), firstOccur,
          List.filter_append]
        simp
      · rw [List.cons_append, firstOccur, ih, if_neg hw,
          if_neg (by simp [hyw, hw]), firstOccur, List.filter_append]
        have : [w].filter (fun x => x != y) = [w] := by simp [hyw]
        rw [this, List.cons_append]

theorem bump_of_not_mem {w : String} :
    ∀ {l : List (String × Nat)}, (∀ p ∈ l, p.1 ≠ w) → bump w l = l ++ [(w, 1)] := by
  intro l
  induction l with
  | nil => intro _; rfl
  | cons p ps ih =>
    intro h
    obtain ⟨x, n⟩ := p
    rw [bump, if_neg (h (x, n) (by simp)), ih (fun q hq => h q (by simp [hq]))]
    rfl

theorem bump_map_of_mem {w : String} {f : String → Nat} :
    ∀ {l : List String}, l.Nodup → w ∈ l →
      bump w (l.map (fun x => (x, f x))) =
        l.map (fun x => (x, if x = w then f x + 1 else f x)) := by
  intro l
  induction l with
  | nil => intro _ hw; cases hw
  | cons y ys ih =>
    intro hnd hw
    rw [List.map_cons, List.map_cons]
    by_cases hy : y = w
    · subst hy
      rw [bump, if_pos rfl, if_pos rfl]
      congr 1
      apply List.map_congr_left
      intro x hx
      have hxy : x ≠ y := fun e => (List.nodup_cons.mp hnd).1 (e ▸ hx)
      simp [hxy]
    · have hw' : w ∈ ys := by
        rcases List.mem_cons.mp hw with rfl | h
        · exact absurd rfl hy
        · exact h
      rw [bump, if_neg hy, if_neg hy, ih (List.nodup_cons.mp hnd).2 hw']

theorem buildFreq_eq (ws : List String) :
    buildFreq ws = (firstOccur ws).map (fun w => (w, ws.count w)) := by
  induction ws using List.reverseRecOn with
  | nil => rfl
  | append_singleton l w ih =>
    have hstep : buildFreq (l ++ [w]) = bump w (buildFreq l) := by
      simp [buildFreq, List.foldl_append]
    rw [hstep, ih, firstOccur_append_singleton]
    by_cases hw : w ∈ l
    · rw [if_pos hw, bump_map_of_mem (firstOccur_nodup l) (mem_firstOccur.mpr hw)]
      apply List.map_congr_left
      intro x hx
      by_cases hxw : x = w
      · subst hxw
        simp [List.count_append]
      · simp [hxw, List.count_append, List.count_singleton']
    · rw [if_neg hw,
        bump_of_not_mem (fun p hp => by
          obtain ⟨x, hx, rfl⟩ := List.mem_map.mp hp
          exact fun e => hw (e ▸ mem_firstOccur.mp hx)),
        List.map_append]
      congr 1
      · apply List.map_congr_left
        intro x hx
        have hxw : x ≠ w := fun e => hw (e ▸ mem_firstOccur.mp hx)
        simp [List.count_append, List.count_singleton', hxw]
      · simp [List.count_append, List.count_eq_zero_of_not_mem hw]

/-- Claim C5 as amended: for every transcript, the client-side fallback
returns the top-5 most frequent qualifying words of length above 3, ranked
by frequency descending with ties broken by the enumeration order of the
frequency object — purely numeric words that are canonical array-index
keys first, in ascending numeric order, then the remaining words in
encounter order; the API-route fallback applies the identical ranking but
keeps only words of length above 4. -/
theorem extractBasicThemes_spec (t : String) :
    YouTubeService.extractBasicThemes t = specThemes 3 t ∧
    AnalyzeVideoApi.extractBasicThemes t = specThemes 4 t := by
  constructor <;>
    simp [YouTubeService.extractBasicThemes, AnalyzeVideoApi.extractBasicThemes,
      specThemes, buildFreq_eq]

/-- Counterexample to claim C5 as stated, in both of its failing aspects.
First, on a transcript made of two occurrences of a four-letter word, the
claimed ranking (words longer than 3 characters) yields that word, but the
API-route fallback cited by the claim returns the empty list, because it
keeps only words longer than 4 characters. Second, ties are not broken by
encounter order: on two tied purely numeric words, `Object.entries`
enumerates the array-index keys in ascending numeric order, so the
client-side fallback returns the numerically smaller word first even when
the larger one was encountered first. -/
theorem apiThemes_threshold_counterexample :
    (AnalyzeVideoApi.extractBasicThemes "nice nice" = [] ∧
      encounterOrderThemes 3 "nice nice" = ["nice"] ∧
      AnalyzeVideoApi.extractBasicThemes "nice nice" ≠ encounterOrderThemes 3 "nice nice") ∧
    (YouTubeService.extractBasicThemes "9999 9999 1111 1111" = ["1111", "9999"] ∧
      encounterOrderThemes 3 "9999 9999 1111 1111" = ["9999", "1111"] ∧
      YouTubeService.extractBasicThemes "9999 9999 1111 1111"
        ≠ encounterOrderThemes 3 "9999 9999 1111 1111") := by
  refine ⟨⟨by decide, by decide, by decide⟩, ⟨by decide, by decide, by decide⟩⟩

end MindLink
